import Mathlib

/-!
Verification of the adaptive trial-generation core of the loss-aversion
lottery experiment (src/streamlit_app.py).

The Python core is shallowly embedded below.  Monetary amounts and
probabilities (Python floats that only ever hold small dyadic values)
are modelled as exact rationals.  The two draws that
`random.Random.choice` performs per gamble are supplied as explicit
natural-number inputs `r1 r2`, and the fresh identifier that
`uuid.uuid4()` produces is supplied as an explicit entropy input `gid`.
Wall-clock fields of a log row (timestamp, response latency) are outside
the embedding; every other field of the Python row dict is kept.
-/

namespace LossAversionApp

/-- Embeds the dataclass `MixedGamble` (streamlit_app.py lines 27-33). -/
structure MixedGamble where
  p_win : ℚ
  win : ℚ
  p_lose : ℚ
  lose : ℚ
  gamble_id : String
deriving DecidableEq, Repr, Inhabited

/-- Embeds the property `MixedGamble.ev` (lines 35-37):
`p_win * win - p_lose * lose`. -/
def MixedGamble.ev (g : MixedGamble) : ℚ :=
  g.p_win * g.win - g.p_lose * g.lose

/-- Tier-0 win candidates, the literal list at line 50. -/
def tier0_wins : List ℚ := [6, 8, 10, 12, 14, 16]

/-- Tier-0 loss candidates, the literal list at line 51. -/
def tier0_losses : List ℚ := [4, 6, 8, 10, 12]

/-- Tier-1 win candidates, the literal list at line 53. -/
def tier1_wins : List ℚ := [10, 12, 14, 16, 18, 20, 22]

/-- Tier-1 loss candidates, the literal list at line 54. -/
def tier1_losses : List ℚ := [8, 10, 12, 14, 16, 18]

/-- Tier-2 win candidates, the literal list at line 56. -/
def tier2_wins : List ℚ := [16, 18, 20, 22, 24, 26, 28, 30]

/-- Tier-2 loss candidates, the literal list at line 57. -/
def tier2_losses : List ℚ := [12, 14, 16, 18, 20, 22, 24]

/-- Models `rng.choice(l)`: selects one element of the non-empty list `l`,
the selection index `r` being supplied by the pseudo-random source. -/
def choice (l : List ℚ) (r : Nat) : ℚ :=
  l.getD (r % l.length) 0

/-- Embeds `sample_mixed_gamble` (lines 40-69).  `difficulty <= 0` takes the
tier-0 lists, `difficulty == 1` the tier-1 lists, anything else the tier-2
lists; probabilities are fixed at 0.5; `r1` and `r2` stand for the two
`rng.choice` draws and `gid` for the `uuid.uuid4()` identifier. -/
def sample_mixed_gamble (difficulty : Int) (r1 r2 : Nat) (gid : String) : MixedGamble :=
  let p : ℚ := 0.5
  let wl : ℚ × ℚ :=
    if difficulty ≤ 0 then (choice tier0_wins r1, choice tier0_losses r2)
    else if difficulty = 1 then (choice tier1_wins r1, choice tier1_losses r2)
    else (choice tier2_wins r1, choice tier2_losses r2)
  { p_win := p, win := wl.1, p_lose := p, lose := wl.2, gamble_id := gid }

/-- Embeds `simple_loss_aversion_flag` (lines 75-86). -/
def simple_loss_aversion_flag (gamble : MixedGamble) (decision : String) : String :=
  if 2 ≤ gamble.ev ∧ decision = "reject" then "loss_aversion_possible"
  else if gamble.ev ≤ -2 ∧ decision = "accept" then "risk_seeking_or_noise"
  else "none"

/-- Embeds `adapt_difficulty` (lines 89-105).  Python's
`sum(1 for f in recent_flags if f == "loss_aversion_possible")` is
`recent_flags.count "loss_aversion_possible"`, and the float division
`la / n` is modelled exactly over the rationals. -/
def adapt_difficulty (current : Int) (recent_flags : List String) : Int :=
  if recent_flags = [] then current
  else if (0.6 : ℚ) ≤ ((recent_flags.count "loss_aversion_possible" : ℚ) / (recent_flags.length : ℚ)) then
    max 0 (current - 1)
  else if ((recent_flags.count "loss_aversion_possible" : ℚ) / (recent_flags.length : ℚ)) ≤ (0.2 : ℚ) then
    min 2 (current + 1)
  else current

/-- The flag history of the spec's worked example for difficulty
adaptation: six `loss_aversion_possible` flags followed by four `none`
flags. -/
def c1_flags : List String :=
  [ "loss_aversion_possible", "loss_aversion_possible", "loss_aversion_possible",
    "loss_aversion_possible", "loss_aversion_possible", "loss_aversion_possible",
    "none", "none", "none", "none"]

/-- Embeds `coach_feedback_template` (lines 108-133); Python's fixed-point
float formatting of the amounts is rendered with `toString` on the exact
rationals, the sentence structure and branch selection are kept. -/
def coach_feedback_template (gamble : MixedGamble) (decision : String) (flag : String) : String :=
  let ev_text := "EV = " ++ toString gamble.ev ++ " (expected value)."
  let frame := "This is a 50/50 gamble: win " ++ toString gamble.win ++ " or lose " ++ toString gamble.lose ++ "."
  if flag = "loss_aversion_possible" then
    frame ++ " " ++ ev_text ++ " If the possible loss felt disproportionately salient, try focusing on the probability structure and the long-run average outcome."
  else if flag = "risk_seeking_or_noise" then
    frame ++ " " ++ ev_text ++ " Consider whether you would make the same choice repeatedly - what would happen on average over many trials?"
  else
    frame ++ " " ++ ev_text ++ " A quick check: what mattered more - the potential loss magnitude or the expected value?"

/-- Modelled from the spec: the stream of draws of Python's
`random.Random(seed)` is not part of src (it lives in Python's standard
library); the spec only requires it to be a deterministic function of the
seed it was constructed with.  `prandom seed k` is the k-th draw of a
generator seeded with `seed`; the concrete mixing function is arbitrary
but fixed. -/
def prandom (seed : Int) (k : Nat) : Nat :=
  (seed.natAbs + 1) * (k + 2)

/-- The gamble drawn for one trial: `rng()` (lines 172-174) seeds a fresh
generator with `rng_seed + trial_index`, and `sample_mixed_gamble` (called
at line 202) consumes two draws from it plus fresh uuid entropy `gid`. -/
def replay_gamble (rng_seed : Int) (trial_index : Nat) (difficulty : Int) (gid : String) : MixedGamble :=
  sample_mixed_gamble difficulty
    (prandom (rng_seed + trial_index) 0)
    (prandom (rng_seed + trial_index) 1)
    gid

/-- Embeds `phase_total_trials` (lines 177-178): the dict lookup with
default 0. -/
def phase_total_trials (phase : String) : Nat :=
  if phase = "pre" then 40
  else if phase = "train" then 25
  else if phase = "post" then 40
  else 0

/-- The phase successor encoded by the chained conditionals of
`advance_trial` (lines 189-194): pre -> train -> post -> done, anything
else unchanged. -/
def next_phase (p : String) : String :=
  if p = "pre" then "train"
  else if p = "train" then "post"
  else if p = "post" then "done"
  else p

/-- Embeds one row of the log dict built by `log_decision`
(lines 209-226).  The wall-clock columns timestamp and rt_seconds are
real-time values outside the embedding; every other column is kept. -/
structure TrialRow where
  participant_id : String
  phase : String
  trial_in_phase : Nat
  gamble_id : String
  p_win : ℚ
  win : ℚ
  p_lose : ℚ
  lose : ℚ
  ev : ℚ
  decision : String
  flag : String
  feedback : String
  reflection : String
  difficulty : Int
deriving DecidableEq, Repr, Inhabited

/-- Embeds the per-session `st.session_state` fields used by the core
(init_state, lines 139-169), minus the wall-clock field
trial_started_at. -/
structure SessionState where
  participant_id : String
  phase : String
  trial_index : Nat
  difficulty : Int
  current_gamble : MixedGamble
  rng_seed : Int
  logs : List TrialRow
  last_flags : List String
  reflection : String
deriving DecidableEq, Repr

/-- Embeds `log_decision` (lines 205-227): appends one row snapshotting
the current gamble, decision, flag, feedback, stripped reflection and the
current difficulty. -/
def log_decision (s : SessionState) (decision reflection feedback flag : String) : SessionState :=
  let g := s.current_gamble
  let row : TrialRow := {
    participant_id := s.participant_id
    phase := s.phase
    trial_in_phase := s.trial_index
    gamble_id := g.gamble_id
    p_win := g.p_win
    win := g.win
    p_lose := g.p_lose
    lose := g.lose
    ev := g.ev
    decision := decision
    flag := flag
    feedback := feedback
    reflection := reflection.trim
    difficulty := s.difficulty }
  { s with logs := s.logs ++ [row] }

/-- Embeds `advance_trial` (lines 181-202): increments the trial index,
clears the reflection, resets trial index, difficulty and flag history and
steps the phase when the phase's trial count is reached, then, if the new
phase is an active one, draws the next gamble from the per-trial generator
seeded with `rng_seed + trial_index` (the `rng()` helper, lines 172-174);
`gid` is the uuid entropy for that draw. -/
def advance_trial (s : SessionState) (gid : String) : SessionState :=
  let s1 : SessionState := { s with trial_index := s.trial_index + 1, reflection := "" }
  let s2 : SessionState :=
    if phase_total_trials s1.phase ≤ s1.trial_index then
      { s1 with phase := next_phase s1.phase, trial_index := 0, difficulty := 0, last_flags := [] }
    else s1
  if s2.phase = "pre" ∨ s2.phase = "train" ∨ s2.phase = "post" then
    { s2 with current_gamble := replay_gamble s2.rng_seed s2.trial_index s2.difficulty gid }
  else s2

/-- Python's `lst[-10:]` (line 297): the at most 10 most recent entries. -/
def last10 (l : List String) : List String :=
  l.drop (l.length - 10)

/-- The part of the button handler `handle` (lines 292-310) that runs
before `advance_trial`: classify the decision, during training extend the
flag window and adapt the difficulty and compose feedback, then append the
log row (reflection text is kept only during training). -/
def pre_advance (s : SessionState) (decision : String) : SessionState :=
  let g := s.current_gamble
  let flag := simple_loss_aversion_flag g decision
  let s1 : SessionState :=
    if s.phase = "train" then
      { s with last_flags := last10 (s.last_flags ++ [flag]),
               difficulty := adapt_difficulty s.difficulty (last10 (s.last_flags ++ [flag])) }
    else s
  let feedback := if s.phase = "train" then coach_feedback_template g decision flag else ""
  log_decision s1 decision (if s.phase = "train" then s.reflection else "") feedback flag

/-- Embeds the full button handler `handle` (lines 292-313): the
pre-advance processing followed by `advance_trial`; `gid` is the uuid
entropy for the next drawn gamble. -/
def handle (s : SessionState) (decision gid : String) : SessionState :=
  advance_trial (pre_advance s decision) gid

/-- One completed trial per input pair (decision, uuid entropy for the
following draw), processed in order. -/
def run_session (s : SessionState) (inputs : List (String × String)) : SessionState :=
  inputs.foldl (fun st i => handle st i.1 i.2) s

/-- The phase and trial-index dynamics of `advance_trial`, projected out
of the full state: these two fields evolve as a function of themselves
alone. -/
def proj_step (p : String × Nat) : String × Nat :=
  if phase_total_trials p.1 ≤ p.2 + 1 then (next_phase p.1, 0)
  else (p.1, p.2 + 1)

/-- The phases recorded by the next `n` completed trials, starting from
the given phase and trial index: each trial logs the phase it ran in,
then steps the projection. -/
def phase_list (p : String × Nat) : Nat → List String
  | 0 => []
  | n + 1 => p.1 :: phase_list (proj_step p) n

/-- The phase and trial index after `n` completed trials. -/
def iter_proj (p : String × Nat) : Nat → String × Nat
  | 0 => p
  | n + 1 => iter_proj (proj_step p) n

/-- A fresh post-consent session state (the Start button, lines 251-258,
sets phase pre, trial index 0, difficulty 0 and empty flag history; a
fresh session has an empty log). -/
def c4_state : SessionState :=
  { participant_id := "p", phase := "pre", trial_index := 0, difficulty := 0,
    current_gamble := ⟨1/2, 10, 1/2, 4, "g0"⟩, rng_seed := 7, logs := [],
    last_flags := [], reflection := "" }

/-- 105 accept decisions with uuid entropy for each following draw. -/
def c4_inputs : List (String × String) :=
  List.replicate 105 ( "accept", "g")

/-- A training state one flag short of a 6-of-6 loss-aversion window,
holding a clearly favorable gamble generated under tier 1. -/
def c7_state : SessionState :=
  { participant_id := "p", phase := "train", trial_index := 3, difficulty := 1,
    current_gamble := ⟨1/2, 10, 1/2, 4, "g"⟩, rng_seed := 0, logs := [],
    last_flags := [ "loss_aversion_possible", "loss_aversion_possible",
      "loss_aversion_possible", "loss_aversion_possible", "loss_aversion_possible"],
    reflection := "" }

/-- A pre-test state used to witness that outside training the logged
tier equals the generation tier. -/
def c7_state_pre : SessionState :=
  { participant_id := "p", phase := "pre", trial_index := 3, difficulty := 0,
    current_gamble := ⟨1/2, 10, 1/2, 4, "g"⟩, rng_seed := 0, logs := [],
    last_flags := [], reflection := "" }

/-- A pre-test state on its final trial (index 39 of 40), about to cross
the phase boundary into training. -/
def c8_state : SessionState :=
  { participant_id := "p", phase := "pre", trial_index := 39, difficulty := 0,
    current_gamble := ⟨1/2, 10, 1/2, 4, "g"⟩, rng_seed := 7, logs := [],
    last_flags := [], reflection := "" }

/- ------------------------------------------------------------------ -/
/- Helper lemmas about the generator                                    -/
/- ------------------------------------------------------------------ -/

theorem choice_mem (l : List ℚ) (h : l ≠ []) (r : Nat) : choice l r ∈ l := by
  have hl : 0 < l.length := List.length_pos.mpr h
  have hlt : r % l.length < l.length := Nat.mod_lt _ hl
  unfold choice
  rw [List.getD_eq_getElem l 0 hlt]
  exact List.getElem_mem hlt

/-- C1: `adapt_difficulty` returns the tier unchanged on an empty history;
otherwise, with `f` the fraction of recent flags equal to
`loss_aversion_possible`, it returns `max 0 (tier - 1)` when `f ≥ 0.6`,
`min 2 (tier + 1)` when `f ≤ 0.2`, and the tier unchanged otherwise. -/
theorem adapt_difficulty_spec (tier : Int) (flags : List String) :
    (flags = [] → adapt_difficulty tier flags = tier)
    ∧ (flags ≠ [] →
        ((0.6 : ℚ) ≤ ((flags.count "loss_aversion_possible" : ℚ) / (flags.length : ℚ)) →
          adapt_difficulty tier flags = max 0 (tier - 1))
        ∧ (((flags.count "loss_aversion_possible" : ℚ) / (flags.length : ℚ)) ≤ (0.2 : ℚ) →
          adapt_difficulty tier flags = min 2 (tier + 1))
        ∧ (¬ ((0.6 : ℚ) ≤ ((flags.count "loss_aversion_possible" : ℚ) / (flags.length : ℚ))) →
          ¬ (((flags.count "loss_aversion_possible" : ℚ) / (flags.length : ℚ)) ≤ (0.2 : ℚ)) →
          adapt_difficulty tier flags = tier)) := by
  constructor
  · intro h
    simp [adapt_difficulty, h]
  · intro h
    refine ⟨?_, ?_, ?_⟩
    · intro h1
      simp only [adapt_difficulty, if_neg h, if_pos h1]
    · intro h1
      have h2 : ¬ ((0.6 : ℚ) ≤ ((flags.count "loss_aversion_possible" : ℚ) / (flags.length : ℚ))) := by
        intro hc
        linarith
      simp only [adapt_difficulty, if_neg h, if_neg h2, if_pos h1]
    · intro h1 h2
      simp only [adapt_difficulty, if_neg h, if_neg h1, if_neg h2]

/-- Witness for C1 at the spec's own example: tier 1 with six
`loss_aversion_possible` flags and four `none` flags has fraction 0.6, so
the tier decreases to `max 0 0 = 0`. -/
theorem adapt_difficulty_spec_witness :
    c1_flags ≠ [] ∧ adapt_difficulty 1 c1_flags = max 0 (1 - 1) :=
  ⟨by decide,
   ((adapt_difficulty_spec 1 c1_flags).2 (by decide)).1 (by
      have h1 : c1_flags.count "loss_aversion_possible" = 6 := by decide
      have h2 : c1_flags.length = 10 := by decide
      rw [h1, h2]
      norm_num)⟩

/-- C2: `simple_loss_aversion_flag` returns `loss_aversion_possible` exactly
when the expected value is at least 2 and the decision is reject, returns
`risk_seeking_or_noise` exactly when the expected value is at most -2 and
the decision is accept, returns `none` in every other case, and its result
depends only on the expected value and the decision. -/
theorem flag_rule_spec (g : MixedGamble) (dec : String)
    (hdec : dec = "accept" ∨ dec = "reject") :
    (simple_loss_aversion_flag g dec = "loss_aversion_possible" ↔ (2 ≤ g.ev ∧ dec = "reject"))
    ∧ (simple_loss_aversion_flag g dec = "risk_seeking_or_noise" ↔ (g.ev ≤ -2 ∧ dec = "accept"))
    ∧ (¬ (2 ≤ g.ev ∧ dec = "reject") → ¬ (g.ev ≤ -2 ∧ dec = "accept") →
        simple_loss_aversion_flag g dec = "none")
    ∧ (∀ g2 : MixedGamble, g2.ev = g.ev →
        simple_loss_aversion_flag g2 dec = simple_loss_aversion_flag g dec) := by
  refine ⟨?_, ?_, ?_, ?_⟩
  · unfold simple_loss_aversion_flag
    split_ifs with h1 h2 <;> simp_all
  · unfold simple_loss_aversion_flag
    split_ifs with h1 h2 <;> simp_all
  · intro h1 h2
    unfold simple_loss_aversion_flag
    rw [if_neg h1, if_neg h2]
  · intro g2 hev
    unfold simple_loss_aversion_flag
    rw [hev]

/-- Witness for C2 at the spec's example: a gamble with expected value 5
that is rejected is flagged `loss_aversion_possible`. -/
theorem flag_rule_spec_witness :
    (( "reject" : String) = "accept" ∨ ( "reject" : String) = "reject")
    ∧ (simple_loss_aversion_flag ⟨1/2, 20, 1/2, 10, "w"⟩ "reject" = "loss_aversion_possible"
        ↔ (2 ≤ MixedGamble.ev ⟨1/2, 20, 1/2, 10, "w"⟩ ∧ ( "reject" : String) = "reject")) :=
  ⟨by decide, (flag_rule_spec ⟨1/2, 20, 1/2, 10, "w"⟩ "reject" (by decide)).1⟩

/-- C9: the derived expected value is exactly
`p_win * win - p_lose * lose`; for every generated gamble (probabilities
fixed at 0.5) this is `(win - lose) / 2`; the gamble win 20 / lose 10 at
50/50 has expected value exactly 5. -/
theorem ev_formula_spec :
    (∀ g : MixedGamble, g.ev = g.p_win * g.win - g.p_lose * g.lose)
    ∧ (∀ (d : Int) (r1 r2 : Nat) (gid : String),
        (sample_mixed_gamble d r1 r2 gid).ev
          = ((sample_mixed_gamble d r1 r2 gid).win - (sample_mixed_gamble d r1 r2 gid).lose) / 2)
    ∧ MixedGamble.ev ⟨1/2, 20, 1/2, 10, "w"⟩ = 5 := by
  refine ⟨fun g => rfl, ?_, by norm_num [MixedGamble.ev]⟩
  intro d r1 r2 gid
  unfold sample_mixed_gamble
  split_ifs <;> simp [MixedGamble.ev] <;> ring

/- ------------------------------------------------------------------ -/
/- Evaluation lemmas for the generator's three branches                 -/
/- ------------------------------------------------------------------ -/

theorem sample_eval_tier0 (d : Int) (hd : d ≤ 0) (r1 r2 : Nat) (gid : String) :
    sample_mixed_gamble d r1 r2 gid
      = { p_win := 0.5, win := choice tier0_wins r1, p_lose := 0.5,
          lose := choice tier0_losses r2, gamble_id := gid } := by
  simp [sample_mixed_gamble, hd]

theorem sample_eval_tier1 (r1 r2 : Nat) (gid : String) :
    sample_mixed_gamble 1 r1 r2 gid
      = { p_win := 0.5, win := choice tier1_wins r1, p_lose := 0.5,
          lose := choice tier1_losses r2, gamble_id := gid } := by
  norm_num [sample_mixed_gamble]

theorem sample_eval_tier2 (d : Int) (hd : 2 ≤ d) (r1 r2 : Nat) (gid : String) :
    sample_mixed_gamble d r1 r2 gid
      = { p_win := 0.5, win := choice tier2_wins r1, p_lose := 0.5,
          lose := choice tier2_losses r2, gamble_id := gid } := by
  have h1 : ¬ d ≤ 0 := by omega
  have h2 : d ≠ 1 := by omega
  simp [sample_mixed_gamble, h1, h2]

theorem tier0_wins_pos : ∀ x ∈ tier0_wins, 0 < x := by
  intro x hx
  simp only [tier0_wins, List.mem_cons, List.not_mem_nil, or_false] at hx
  rcases hx with h | h | h | h | h | h <;> rw [h] <;> norm_num

theorem tier0_losses_pos : ∀ x ∈ tier0_losses, 0 < x := by
  intro x hx
  simp only [tier0_losses, List.mem_cons, List.not_mem_nil, or_false] at hx
  rcases hx with h | h | h | h | h <;> rw [h] <;> norm_num

theorem tier1_wins_pos : ∀ x ∈ tier1_wins, 0 < x := by
  intro x hx
  simp only [tier1_wins, List.mem_cons, List.not_mem_nil, or_false] at hx
  rcases hx with h | h | h | h | h | h | h <;> rw [h] <;> norm_num

theorem tier1_losses_pos : ∀ x ∈ tier1_losses, 0 < x := by
  intro x hx
  simp only [tier1_losses, List.mem_cons, List.not_mem_nil, or_false] at hx
  rcases hx with h | h | h | h | h | h <;> rw [h] <;> norm_num

theorem tier2_wins_pos : ∀ x ∈ tier2_wins, 0 < x := by
  intro x hx
  simp only [tier2_wins, List.mem_cons, List.not_mem_nil, or_false] at hx
  rcases hx with h | h | h | h | h | h | h | h <;> rw [h] <;> norm_num

theorem tier2_losses_pos : ∀ x ∈ tier2_losses, 0 < x := by
  intro x hx
  simp only [tier2_losses, List.mem_cons, List.not_mem_nil, or_false] at hx
  rcases hx with h | h | h | h | h | h | h <;> rw [h] <;> norm_num

/-- C3: for every difficulty tier in 0, 1, 2 and any draws, the generated
gamble has both probabilities equal to 1/2, strictly positive amounts, and
win and loss amounts drawn from the documented tier-specific candidate
lists; the generator is a total function, so it always succeeds. -/
theorem generator_tier_spec (d : Int) (h : d = 0 ∨ d = 1 ∨ d = 2)
    (r1 r2 : Nat) (gid : String) :
    (sample_mixed_gamble d r1 r2 gid).p_win = 1/2
    ∧ (sample_mixed_gamble d r1 r2 gid).p_lose = 1/2
    ∧ 0 < (sample_mixed_gamble d r1 r2 gid).win
    ∧ 0 < (sample_mixed_gamble d r1 r2 gid).lose
    ∧ (d = 0 → (sample_mixed_gamble d r1 r2 gid).win ∈ tier0_wins
        ∧ (sample_mixed_gamble d r1 r2 gid).lose ∈ tier0_losses)
    ∧ (d = 1 → (sample_mixed_gamble d r1 r2 gid).win ∈ tier1_wins
        ∧ (sample_mixed_gamble d r1 r2 gid).lose ∈ tier1_losses)
    ∧ (d = 2 → (sample_mixed_gamble d r1 r2 gid).win ∈ tier2_wins
        ∧ (sample_mixed_gamble d r1 r2 gid).lose ∈ tier2_losses) := by
  rcases h with h | h | h <;> subst h
  · rw [sample_eval_tier0 0 le_rfl]
    refine ⟨by norm_num, by norm_num, ?_, ?_, ?_, ?_, ?_⟩
    · exact tier0_wins_pos _ (choice_mem _ (by decide) r1)
    · exact tier0_losses_pos _ (choice_mem _ (by decide) r2)
    · exact fun _ => ⟨choice_mem _ (by decide) r1, choice_mem _ (by decide) r2⟩
    · omega
    · omega
  · rw [sample_eval_tier1]
    refine ⟨by norm_num, by norm_num, ?_, ?_, ?_, ?_, ?_⟩
    · exact tier1_wins_pos _ (choice_mem _ (by decide) r1)
    · exact tier1_losses_pos _ (choice_mem _ (by decide) r2)
    · omega
    · exact fun _ => ⟨choice_mem _ (by decide) r1, choice_mem _ (by decide) r2⟩
    · omega
  · rw [sample_eval_tier2 2 le_rfl]
    refine ⟨by norm_num, by norm_num, ?_, ?_, ?_, ?_, ?_⟩
    · exact tier2_wins_pos _ (choice_mem _ (by decide) r1)
    · exact tier2_losses_pos _ (choice_mem _ (by decide) r2)
    · omega
    · omega
    · exact fun _ => ⟨choice_mem _ (by decide) r1, choice_mem _ (by decide) r2⟩

/-- Witness for C3 at tier 1 with concrete draws. -/
theorem generator_tier_spec_witness :
    ((1 : Int) = 0 ∨ (1 : Int) = 1 ∨ (1 : Int) = 2)
    ∧ (sample_mixed_gamble 1 5 7 "x").p_win = 1/2
    ∧ ((1 : Int) = 1 → (sample_mixed_gamble 1 5 7 "x").win ∈ tier1_wins
        ∧ (sample_mixed_gamble 1 5 7 "x").lose ∈ tier1_losses) :=
  ⟨by decide,
   (generator_tier_spec 1 (by decide) 5 7 "x").1,
   (generator_tier_spec 1 (by decide) 5 7 "x").2.2.2.2.2.1⟩

/-- C10: the generator is total over every integer difficulty; any
difficulty at most 0 draws from the tier-0 candidate lists, any difficulty
at least 2 from the tier-2 candidate lists, and every possible output draws
its amounts from one of the three documented tier lists. -/
theorem out_of_range_bucketing_spec (d : Int) (r1 r2 : Nat) (gid : String) :
    (d ≤ 0 → (sample_mixed_gamble d r1 r2 gid).win ∈ tier0_wins
        ∧ (sample_mixed_gamble d r1 r2 gid).lose ∈ tier0_losses)
    ∧ (2 ≤ d → (sample_mixed_gamble d r1 r2 gid).win ∈ tier2_wins
        ∧ (sample_mixed_gamble d r1 r2 gid).lose ∈ tier2_losses)
    ∧ ((sample_mixed_gamble d r1 r2 gid).win ∈ tier0_wins
        ∨ (sample_mixed_gamble d r1 r2 gid).win ∈ tier1_wins
        ∨ (sample_mixed_gamble d r1 r2 gid).win ∈ tier2_wins)
    ∧ ((sample_mixed_gamble d r1 r2 gid).lose ∈ tier0_losses
        ∨ (sample_mixed_gamble d r1 r2 gid).lose ∈ tier1_losses
        ∨ (sample_mixed_gamble d r1 r2 gid).lose ∈ tier2_losses) := by
  refine ⟨?_, ?_, ?_, ?_⟩
  · intro hd
    rw [sample_eval_tier0 d hd]
    exact ⟨choice_mem _ (by decide) r1, choice_mem _ (by decide) r2⟩
  · intro hd
    rw [sample_eval_tier2 d hd]
    exact ⟨choice_mem _ (by decide) r1, choice_mem _ (by decide) r2⟩
  · rcases lt_trichotomy d 1 with hd | hd | hd
    · rw [sample_eval_tier0 d (by omega)]
      exact Or.inl (choice_mem _ (by decide) r1)
    · subst hd
      rw [sample_eval_tier1]
      exact Or.inr (Or.inl (choice_mem _ (by decide) r1))
    · rw [sample_eval_tier2 d (by omega)]
      exact Or.inr (Or.inr (choice_mem _ (by decide) r1))
  · rcases lt_trichotomy d 1 with hd | hd | hd
    · rw [sample_eval_tier0 d (by omega)]
      exact Or.inl (choice_mem _ (by decide) r2)
    · subst hd
      rw [sample_eval_tier1]
      exact Or.inr (Or.inl (choice_mem _ (by decide) r2))
    · rw [sample_eval_tier2 d (by omega)]
      exact Or.inr (Or.inr (choice_mem _ (by decide) r2))

/-- Witness for C10 at the out-of-range difficulty -5. -/
theorem out_of_range_bucketing_spec_witness :
    ((-5 : Int) ≤ 0)
    ∧ (sample_mixed_gamble (-5) 3 4 "x").win ∈ tier0_wins
    ∧ (sample_mixed_gamble (-5) 3 4 "x").lose ∈ tier0_losses :=
  ⟨by decide,
   ((out_of_range_bucketing_spec (-5) 3 4 "x").1 (by decide)).1,
   ((out_of_range_bucketing_spec (-5) 3 4 "x").1 (by decide)).2⟩

/-- C5 counterexample: the identifier of a generated gamble comes from
`uuid.uuid4()`, a source of entropy independent of the seeded per-trial
generator, so two replays of the same (seed, trial index, difficulty) with
different uuid entropy yield different gambles: the claim that the whole
gamble, identifier included, is reproduced is false. -/
theorem replay_identifier_not_reproducible :
    ¬ (replay_gamble 0 0 0 "aaaa" = replay_gamble 0 0 0 "bbbb") := by
  intro h
  have h2 : ( "aaaa" : String) = "bbbb" := congrArg MixedGamble.gamble_id h
  exact absurd h2 (by decide)

/-- C5 amended: for every fixed seed, trial index and difficulty tier, two
replays of a trial reproduce the same win amount, loss amount and win/loss
probabilities; only the identifier, drawn from independent uuid entropy,
may differ. -/
theorem replay_deterministic_amounts (seed : Int) (idx : Nat) (diff : Int)
    (gid1 gid2 : String) :
    (replay_gamble seed idx diff gid1).win = (replay_gamble seed idx diff gid2).win
    ∧ (replay_gamble seed idx diff gid1).lose = (replay_gamble seed idx diff gid2).lose
    ∧ (replay_gamble seed idx diff gid1).p_win = (replay_gamble seed idx diff gid2).p_win
    ∧ (replay_gamble seed idx diff gid1).p_lose = (replay_gamble seed idx diff gid2).p_lose :=
  ⟨rfl, rfl, rfl, rfl⟩

/-- C6 counterexample: no input-validation error exists anywhere on these
paths; an out-of-range difficulty is silently bucketed (difficulty -5
yields exactly the tier-0 sample), an out-of-range tier fed to the adapter
is silently accepted and only the output is clamped (tier 7 yields 2), and
a malformed decision label is silently classified as `none`. -/
theorem no_input_validation_counterexample :
    sample_mixed_gamble (-5) 0 1 "x" = sample_mixed_gamble 0 0 1 "x"
    ∧ adapt_difficulty 7 [ "none"] = 2
    ∧ simple_loss_aversion_flag ⟨1/2, 10, 1/2, 4, "g"⟩ "flip" = "none" := by
  refine ⟨?_, ?_, ?_⟩
  · rw [sample_eval_tier0 (-5) (by norm_num), sample_eval_tier0 0 le_rfl]
  · have hne : ([ "none"] : List String) ≠ [] := by decide
    have hc : ([ "none"] : List String).count "loss_aversion_possible" = 0 := by decide
    have hl : ([ "none"] : List String).length = 1 := by decide
    simp only [adapt_difficulty, if_neg hne, hc, hl]
    norm_num
  · have h1 : ¬ ((2 : ℚ) ≤ MixedGamble.ev ⟨1/2, 10, 1/2, 4, "g"⟩ ∧ ( "flip" : String) = "reject") := by
      rintro ⟨-, h⟩
      exact absurd h (by decide)
    have h2 : ¬ (MixedGamble.ev ⟨1/2, 10, 1/2, 4, "g"⟩ ≤ (-2 : ℚ) ∧ ( "flip" : String) = "accept") := by
      rintro ⟨-, h⟩
      exact absurd h (by decide)
    simp only [simple_loss_aversion_flag, if_neg h1, if_neg h2]

/-- C6 amended: the code performs no input validation on these paths: an
out-of-range difficulty is silently bucketed by the generator (at most 0
behaves as tier 0, at least 2 as tier 2), a decision label outside accept
and reject is silently classified as `none`, and the adapter accepts any
input tier, clamping only the output it produces. -/
theorem silent_bucketing_spec (d : Int) (r1 r2 : Nat) (gid : String)
    (g : MixedGamble) (dec : String) (c : Int) (fl : List String) :
    (d ≤ 0 → sample_mixed_gamble d r1 r2 gid = sample_mixed_gamble 0 r1 r2 gid)
    ∧ (2 ≤ d → sample_mixed_gamble d r1 r2 gid = sample_mixed_gamble 2 r1 r2 gid)
    ∧ (dec ≠ "accept" → dec ≠ "reject" → simple_loss_aversion_flag g dec = "none")
    ∧ (adapt_difficulty c fl = c ∨ adapt_difficulty c fl = max 0 (c - 1)
        ∨ adapt_difficulty c fl = min 2 (c + 1)) := by
  refine ⟨?_, ?_, ?_, ?_⟩
  · intro hd
    rw [sample_eval_tier0 d hd, sample_eval_tier0 0 le_rfl]
  · intro hd
    rw [sample_eval_tier2 d hd, sample_eval_tier2 2 le_rfl]
  · intro h1 h2
    unfold simple_loss_aversion_flag
    rw [if_neg (by rintro ⟨-, h⟩; exact h2 h), if_neg (by rintro ⟨-, h⟩; exact h1 h)]
  · unfold adapt_difficulty
    split_ifs <;> simp

/-- Witness for C6 (amended) at the out-of-range difficulty -3 and the
malformed decision label `flip`. -/
theorem silent_bucketing_spec_witness :
    ((-3 : Int) ≤ 0
      → sample_mixed_gamble (-3) 0 0 "x" = sample_mixed_gamble 0 0 0 "x")
    ∧ (( "flip" : String) ≠ "accept")
    ∧ simple_loss_aversion_flag ⟨1/2, 10, 1/2, 4, "g"⟩ "flip" = "none" :=
  ⟨(fun h => (silent_bucketing_spec (-3) 0 0 "x" ⟨1/2, 10, 1/2, 4, "g"⟩ "flip" 7 [ "none"]).1 h),
   by decide,
   (silent_bucketing_spec (-3) 0 0 "x" ⟨1/2, 10, 1/2, 4, "g"⟩ "flip" 7 [ "none"]).2.2.1
     (by decide) (by decide)⟩

/- ------------------------------------------------------------------ -/
/- Helper lemmas about the session step                                 -/
/- ------------------------------------------------------------------ -/

theorem pre_advance_phase (s : SessionState) (d : String) :
    (pre_advance s d).phase = s.phase := by
  by_cases hc : s.phase = "train" <;> simp [pre_advance, log_decision, hc]

theorem pre_advance_trial_index (s : SessionState) (d : String) :
    (pre_advance s d).trial_index = s.trial_index := by
  by_cases hc : s.phase = "train" <;> simp [pre_advance, log_decision, hc]

theorem pre_advance_rng_seed (s : SessionState) (d : String) :
    (pre_advance s d).rng_seed = s.rng_seed := by
  by_cases hc : s.phase = "train" <;> simp [pre_advance, log_decision, hc]

theorem pre_advance_difficulty (s : SessionState) (d : String) :
    (pre_advance s d).difficulty
      = if s.phase = "train"
        then adapt_difficulty s.difficulty
          (last10 (s.last_flags ++ [simple_loss_aversion_flag s.current_gamble d]))
        else s.difficulty := by
  by_cases hc : s.phase = "train" <;> simp [pre_advance, log_decision, hc]

theorem pre_advance_logs_phase (s : SessionState) (d : String) :
    (pre_advance s d).logs.map TrialRow.phase
      = s.logs.map TrialRow.phase ++ [s.phase] := by
  by_cases hc : s.phase = "train" <;> simp [pre_advance, log_decision, hc]

theorem pre_advance_logs_difficulty (s : SessionState) (d : String) :
    (pre_advance s d).logs.map TrialRow.difficulty
      = s.logs.map TrialRow.difficulty ++ [(pre_advance s d).difficulty] := by
  by_cases hc : s.phase = "train" <;> simp [pre_advance, log_decision, hc]

theorem advance_trial_logs (s : SessionState) (gid : String) :
    (advance_trial s gid).logs = s.logs := by
  simp only [advance_trial]
  split_ifs <;> rfl

theorem advance_trial_proj (s : SessionState) (gid : String) :
    ((advance_trial s gid).phase, (advance_trial s gid).trial_index)
      = proj_step (s.phase, s.trial_index) := by
  simp only [advance_trial, proj_step]
  split_ifs <;> rfl

theorem advance_trial_difficulty (s : SessionState) (gid : String) :
    (advance_trial s gid).difficulty
      = if phase_total_trials s.phase ≤ s.trial_index + 1 then 0 else s.difficulty := by
  simp only [advance_trial]
  split_ifs <;> rfl

theorem advance_trial_index (s : SessionState) (gid : String) :
    (advance_trial s gid).trial_index
      = if phase_total_trials s.phase ≤ s.trial_index + 1 then 0 else s.trial_index + 1 := by
  simp only [advance_trial]
  split_ifs <;> rfl

theorem advance_trial_flags (s : SessionState) (gid : String) :
    (advance_trial s gid).last_flags
      = if phase_total_trials s.phase ≤ s.trial_index + 1 then [] else s.last_flags := by
  simp only [advance_trial]
  split_ifs <;> rfl

theorem advance_trial_phase (s : SessionState) (gid : String) :
    (advance_trial s gid).phase
      = if phase_total_trials s.phase ≤ s.trial_index + 1 then next_phase s.phase else s.phase := by
  simp only [advance_trial]
  split_ifs <;> rfl

theorem advance_trial_boundary_gamble (s : SessionState) (gid : String)
    (hb : phase_total_trials s.phase ≤ s.trial_index + 1)
    (hact : next_phase s.phase = "pre" ∨ next_phase s.phase = "train"
      ∨ next_phase s.phase = "post") :
    (advance_trial s gid).current_gamble = replay_gamble s.rng_seed 0 0 gid := by
  simp only [advance_trial]
  rw [if_pos hb]
  dsimp only
  rw [if_pos hact]

theorem advance_trial_done (s : SessionState) (gid : String) (h : s.phase = "done") :
    (advance_trial s gid).current_gamble = s.current_gamble := by
  simp [advance_trial, h, phase_total_trials, next_phase]

theorem handle_proj (s : SessionState) (d gid : String) :
    ((handle s d gid).phase, (handle s d gid).trial_index)
      = proj_step (s.phase, s.trial_index) := by
  unfold handle
  rw [advance_trial_proj, pre_advance_phase, pre_advance_trial_index]

theorem handle_logs_phase (s : SessionState) (d gid : String) :
    (handle s d gid).logs.map TrialRow.phase
      = s.logs.map TrialRow.phase ++ [s.phase] := by
  unfold handle
  rw [advance_trial_logs, pre_advance_logs_phase]

theorem run_session_cons (s : SessionState) (i : String × String)
    (rest : List (String × String)) :
    run_session s (i :: rest) = run_session (handle s i.1 i.2) rest := rfl

theorem run_session_proj (inputs : List (String × String)) :
    ∀ s : SessionState,
      ((run_session s inputs).phase, (run_session s inputs).trial_index)
        = iter_proj (s.phase, s.trial_index) inputs.length := by
  induction inputs with
  | nil => intro s; rfl
  | cons i rest ih =>
    intro s
    rw [run_session_cons, ih, handle_proj]
    rfl

theorem run_session_logs_phase (inputs : List (String × String)) :
    ∀ s : SessionState,
      (run_session s inputs).logs.map TrialRow.phase
        = s.logs.map TrialRow.phase ++ phase_list (s.phase, s.trial_index) inputs.length := by
  induction inputs with
  | nil => intro s; simp [run_session, phase_list]
  | cons i rest ih =>
    intro s
    rw [run_session_cons, ih, handle_logs_phase, handle_proj]
    simp [phase_list, List.append_assoc]

theorem phase_list_length : ∀ (n : Nat) (p : String × Nat), (phase_list p n).length = n := by
  intro n
  induction n with
  | zero => intro p; rfl
  | succ k ih => intro p; simp [phase_list, ih]

theorem adapt_difficulty_bounds (c : Int) (fl : List String) (h0 : 0 ≤ c) (h2 : c ≤ 2) :
    0 ≤ adapt_difficulty c fl ∧ adapt_difficulty c fl ≤ 2 := by
  unfold adapt_difficulty
  split_ifs <;> constructor <;> omega

/-- C4: starting from a fresh post-consent state, processing 105 decisions
appends exactly 105 log rows (one per completed trial: after any number k
of completed trials exactly min k 105 rows exist), the logged phase column
is exactly 40 pre rows, then 25 train rows, then 40 post rows with no
interleaving, and afterwards the session is in the finished state and
advancing it draws no further gamble. -/
theorem session_trace_spec (s : SessionState) (inputs : List (String × String))
    (hph : s.phase = "pre") (hidx : s.trial_index = 0) (hlogs : s.logs = [])
    (hlen : inputs.length = 105)
    (hdec : ∀ p ∈ inputs, p.1 = "accept" ∨ p.1 = "reject") :
    (run_session s inputs).logs.length = 105
    ∧ (∀ k : Nat, (run_session s (inputs.take k)).logs.length = min k 105)
    ∧ (run_session s inputs).logs.map TrialRow.phase
        = List.replicate 40 "pre" ++ List.replicate 25 "train" ++ List.replicate 40 "post"
    ∧ (run_session s inputs).phase = "done"
    ∧ (∀ gid, (advance_trial (run_session s inputs) gid).current_gamble
        = (run_session s inputs).current_gamble) := by
  have hmap := run_session_logs_phase inputs s
  rw [hph, hidx, hlogs, hlen] at hmap
  have hlist : phase_list ( "pre", 0) 105
      = List.replicate 40 "pre" ++ List.replicate 25 "train" ++ List.replicate 40 "post" := by
    decide
  have hmap2 : (run_session s inputs).logs.map TrialRow.phase
      = List.replicate 40 "pre" ++ List.replicate 25 "train" ++ List.replicate 40 "post" := by
    rw [hmap, hlist]
    rfl
  have hproj := run_session_proj inputs s
  rw [hph, hidx, hlen] at hproj
  have hdone : iter_proj ( "pre", 0) 105 = ( "done", 0) := by decide
  rw [hdone] at hproj
  have hphase : (run_session s inputs).phase = "done" := congrArg Prod.fst hproj
  refine ⟨?_, ?_, hmap2, hphase, ?_⟩
  · have h := congrArg List.length hmap2
    simpa using h
  · intro k
    have h := run_session_logs_phase (inputs.take k) s
    rw [hph, hidx, hlogs] at h
    have h2 := congrArg List.length h
    simpa [phase_list_length, List.length_take, hlen] using h2
  · intro gid
    exact advance_trial_done _ gid hphase

/-- Witness for C4: a concrete fresh session processing 105 accept
decisions finishes in the done state. -/
theorem session_trace_spec_witness :
    c4_inputs.length = 105
    ∧ (∀ p ∈ c4_inputs, p.1 = "accept" ∨ p.1 = "reject")
    ∧ (run_session c4_state c4_inputs).phase = "done" :=
  ⟨by decide, by decide,
   (session_trace_spec c4_state c4_inputs rfl rfl rfl (by decide) (by decide)).2.2.2.1⟩

/-- C7 counterexample: in a training trial whose decision triggers a
difficulty decrease, the appended log row records the adapted tier (0),
not the tier 1 that was in effect when the presented gamble was generated:
the claim that the row records the generation-time tier is false. -/
theorem logged_tier_counterexample :
    c7_state.difficulty = 1
    ∧ (handle c7_state "reject" "g2").logs.map TrialRow.difficulty = [0] := by
  refine ⟨rfl, ?_⟩
  rw [handle, advance_trial_logs, pre_advance_logs_difficulty, pre_advance_difficulty,
    if_pos (show c7_state.phase = "train" from rfl)]
  have hflag : simple_loss_aversion_flag c7_state.current_gamble "reject"
      = "loss_aversion_possible" := by
    unfold simple_loss_aversion_flag
    rw [if_pos ⟨by norm_num [MixedGamble.ev, c7_state], rfl⟩]
  rw [hflag]
  have hfl : last10 (c7_state.last_flags ++ [ "loss_aversion_possible"])
      = List.replicate 6 "loss_aversion_possible" := by decide
  rw [hfl]
  have hc : (List.replicate 6 "loss_aversion_possible").count "loss_aversion_possible"
      = 6 := by decide
  have hl : (List.replicate 6 "loss_aversion_possible").length = 6 := by decide
  have hadapt : adapt_difficulty 1 (List.replicate 6 "loss_aversion_possible") = 0 := by
    simp only [adapt_difficulty, hc, hl]
    rw [if_neg (by decide), if_pos (by norm_num)]
    norm_num
  rw [show c7_state.difficulty = (1 : Int) from rfl, hadapt]
  rfl

/-- C7 amended: the appended log row records the difficulty current after
the decision's processing: in pre-test and post-test this equals the tier
under which the gamble was generated, but in training it is the tier
produced by the difficulty adaptation that follows the decision, which can
differ from the generation tier. -/
theorem logged_tier_after_adaptation (s : SessionState) (d gid : String) :
    ((s.phase = "pre" ∨ s.phase = "post") →
      (handle s d gid).logs.map TrialRow.difficulty
        = s.logs.map TrialRow.difficulty ++ [s.difficulty])
    ∧ (s.phase = "train" →
      (handle s d gid).logs.map TrialRow.difficulty
        = s.logs.map TrialRow.difficulty
          ++ [adapt_difficulty s.difficulty
                (last10 (s.last_flags ++ [simple_loss_aversion_flag s.current_gamble d]))]) := by
  constructor
  · intro hph
    have hne : ¬ (s.phase = "train") := by
      rcases hph with h | h <;> rw [h] <;> decide
    rw [handle, advance_trial_logs, pre_advance_logs_difficulty, pre_advance_difficulty,
      if_neg hne]
  · intro hph
    rw [handle, advance_trial_logs, pre_advance_logs_difficulty, pre_advance_difficulty,
      if_pos hph]

/-- Witness for C7 (amended) at a concrete pre-test state: the logged tier
equals the state's tier. -/
theorem logged_tier_after_adaptation_witness :
    (c7_state_pre.phase = "pre" ∨ c7_state_pre.phase = "post")
    ∧ (handle c7_state_pre "reject" "g2").logs.map TrialRow.difficulty
        = c7_state_pre.logs.map TrialRow.difficulty ++ [c7_state_pre.difficulty] :=
  ⟨Or.inl rfl, (logged_tier_after_adaptation c7_state_pre "reject" "g2").1 (Or.inl rfl)⟩

/-- C8: starting a trial with a tier in [0,2], the tier after the step is
again in [0,2]; outside the training phase a non-boundary step leaves the
tier unchanged; and when the step crosses a phase boundary the trial
index and tier return to 0 and the flag history becomes empty, the next
gamble (if the new phase is still an active one) being drawn under tier 0
at trial index 0. -/
theorem tier_invariant_spec (s : SessionState) (d gid : String)
    (hph : s.phase = "pre" ∨ s.phase = "train" ∨ s.phase = "post")
    (h0 : 0 ≤ s.difficulty) (h2 : s.difficulty ≤ 2) :
    (0 ≤ (handle s d gid).difficulty ∧ (handle s d gid).difficulty ≤ 2)
    ∧ (s.phase ≠ "train" → ¬ (phase_total_trials s.phase ≤ s.trial_index + 1) →
        (handle s d gid).difficulty = s.difficulty)
    ∧ (phase_total_trials s.phase ≤ s.trial_index + 1 →
        (handle s d gid).trial_index = 0
        ∧ (handle s d gid).difficulty = 0
        ∧ (handle s d gid).last_flags = []
        ∧ ((handle s d gid).phase ≠ "done" →
            (handle s d gid).current_gamble = replay_gamble s.rng_seed 0 0 gid)) := by
  have hd : (handle s d gid).difficulty
      = if phase_total_trials s.phase ≤ s.trial_index + 1 then 0
        else (pre_advance s d).difficulty := by
    rw [handle, advance_trial_difficulty, pre_advance_phase, pre_advance_trial_index]
  have hpre_bounds : 0 ≤ (pre_advance s d).difficulty ∧ (pre_advance s d).difficulty ≤ 2 := by
    rw [pre_advance_difficulty]
    by_cases hc : s.phase = "train"
    · rw [if_pos hc]
      exact adapt_difficulty_bounds _ _ h0 h2
    · rw [if_neg hc]
      exact ⟨h0, h2⟩
  refine ⟨?_, ?_, ?_⟩
  · rw [hd]
    split_ifs
    · exact ⟨le_rfl, by norm_num⟩
    · exact hpre_bounds
  · intro hne hnb
    rw [hd, if_neg hnb, pre_advance_difficulty, if_neg hne]
  · intro hb
    have hbp : phase_total_trials (pre_advance s d).phase ≤ (pre_advance s d).trial_index + 1 := by
      rw [pre_advance_phase, pre_advance_trial_index]
      exact hb
    refine ⟨?_, ?_, ?_, ?_⟩
    · rw [handle, advance_trial_index, if_pos hbp]
    · rw [hd, if_pos hb]
    · rw [handle, advance_trial_flags, if_pos hbp]
    · intro hdone
      have hphase : (handle s d gid).phase = next_phase s.phase := by
        rw [handle, advance_trial_phase, if_pos hbp, pre_advance_phase]
      have hact : next_phase s.phase = "pre" ∨ next_phase s.phase = "train"
          ∨ next_phase s.phase = "post" := by
        rw [hphase] at hdone
        rcases hph with h | h | h <;> rw [h] at hdone ⊢ <;> simp [next_phase] at hdone ⊢
      rw [handle, advance_trial_boundary_gamble (pre_advance s d) gid hbp
        (by rw [pre_advance_phase]; exact hact), pre_advance_rng_seed]

/-- Witness for C8 at a concrete pre-test state on its final trial: the
step crosses the boundary into training with index, tier and flag history
reset. -/
theorem tier_invariant_spec_witness :
    (c8_state.phase = "pre" ∨ c8_state.phase = "train" ∨ c8_state.phase = "post")
    ∧ (0 ≤ c8_state.difficulty ∧ c8_state.difficulty ≤ 2)
    ∧ (0 ≤ (handle c8_state "accept" "g2").difficulty
        ∧ (handle c8_state "accept" "g2").difficulty ≤ 2) :=
  ⟨by decide, by decide,
   (tier_invariant_spec c8_state "accept" "g2" (by decide) (by decide) (by decide)).1⟩

end LossAversionApp
